import Mathlib

/-!
Verification of the mol* "Export to AR" export-and-publish workflow.

The repository contains four near-duplicate variants of a
`GeometryExporterUI` component:

* the direct GitHub-dispatch variant (`src/src/extensions/geo-export/ui.tsx`),
* the Render-proxy variant with separate GLB/USDZ exporters (`src/unnamed/part_000`),
* the token-proxy variant (`src/unnamed/part_001`),
* the multipart-upload variant plus one more proxy copy (`src/unnamed/part_002`).

Each variant's `exportToAR` handler is embedded below as a pure function
from an environment (the outcomes of its external collaborators: the
geometry exporters, the `FileReader`, the clock, `Math.random`, and the
network) to a trace of observable events plus the final value of the
`busy` flag.  The busy-gate behaviour of the rendered controls is embedded
as a small state machine.
-/

/-- A binary blob, modelled by its byte content. -/
structure Blob where
  bytes : List Nat
deriving DecidableEq, Repr

/-- Result of `controls.exportGeometry()`: a blob and a filename. -/
structure ExportData where
  blob : Blob
  filename : String
deriving DecidableEq, Repr

/-- One loaded structural subject; `entryId` models
`cell.obj?.data...entryId`, absent metadata being `none`. -/
structure StructureEntry where
  entryId : Option String
deriving DecidableEq, Repr

/-- The JSON payload returned by the upload endpoint:
`{ success, arLink?, qrCodeUrl?, error? }`. -/
structure UploadResp where
  success : Bool
  arLink : Option String
  qrCodeUrl : Option String
  error : Option String
deriving DecidableEq, Repr

/-- JS `x || d` for an optional string `x`: `undefined`/`null` and the
empty string are falsy and yield the default. -/
def jsOrStr (x : Option String) (d : String) : String :=
  match x with
  | none => d
  | some s => if s = "" then d else s

/-- JS `String.prototype.split(',')` on the character list of a string. -/
def splitOnComma : List Char → List (List Char)
  | [] => [[]]
  | c :: rest =>
      match splitOnComma rest with
      | [] => [[]]
      | p :: ps => if c = ',' then [] :: p :: ps else (c :: p) :: ps

/-- JS `s.split(',')[1]`; the out-of-range access yielding `undefined` is
modelled as `none`. -/
def splitCommaSecond (s : String) : Option String :=
  ((splitOnComma s.data).get? 1).map String.mk

/-- The base-36 digit alphabet used by JS `Number.prototype.toString(36)`. -/
def base36Digits : List Char := "0123456789abcdefghijklmnopqrstuvwxyz".data

/-- The base-36 digit character for a digit value. -/
def base36Char (n : Nat) : Char := base36Digits.getD n '0'

/-- JS `x.toString(36)` for `x` in `[0, 1)`, with the random number given
by the finite list of fractional base-36 digits that JS prints: `"0"`
when there are none (`x = 0`), otherwise `"0."` followed by the digits. -/
def jsNumberToString36 (ds : List Nat) : String :=
  match ds with
  | [] => "0"
  | _ => String.mk ('0' :: '.' :: ds.map base36Char)

/-- JS `String.prototype.substring(a, b)` for `a ≤ b` (clamped at the end
of the string). -/
def jsSubstring (s : String) (a b : Nat) : String :=
  String.mk ((s.data.drop a).take (b - a))

/-- `Math.random().toString(36).substring(2, 8)` — the random suffix of
the derived artifact filenames, as a function of the printed base-36
fractional digits of the random draw.  (`slice(2, 8)` in `part_000`
coincides with `substring(2, 8)` for these in-range arguments.) -/
def randomId (ds : List Nat) : String := jsSubstring (jsNumberToString36 ds) 2 8

/-- `new Date().toISOString().replace(/[:.-]/g, '')` — strips every colon,
period and dash from the ISO timestamp. -/
def stripSeparators (s : String) : String :=
  String.mk (s.data.filter (fun c => !(c = ':' || c = '.' || c = '-')))

/-- `` `${pdbId}-${timestamp}-${randomId}.glb` `` -/
def glbFilename (pdbId timestamp rid : String) : String :=
  pdbId ++ "-" ++ timestamp ++ "-" ++ rid ++ ".glb"

/-- `` `${pdbId}-${timestamp}-${randomId}.usdz` `` -/
def usdzFilename (pdbId timestamp rid : String) : String :=
  pdbId ++ "-" ++ timestamp ++ "-" ++ rid ++ ".usdz"

/-- The identity resolution step of `exportToAR`: subject id with JS `||`
sentinel fallback, stripped timestamp, random token, and the two derived
filenames.  `sentinel` is `"Unknown"` in the direct/token/multipart
variants and `"unknown"` in the proxy variant. -/
def resolveIdentity (entryId : Option String) (sentinel iso : String) (ds : List Nat) :
    String × String :=
  let pdbId := jsOrStr entryId sentinel
  let timestamp := stripSeparators iso
  let rid := randomId ds
  (glbFilename pdbId timestamp rid, usdzFilename pdbId timestamp rid)

/-- The standard base64 alphabet. -/
def base64Alphabet : List Char :=
  "ABCDEFGHIJKLMNOPQRSTUVWXYZabcdefghijklmnopqrstuvwxyz0123456789+/".data

/-- The base64 alphabet character for a 6-bit group. -/
def base64Char (n : Nat) : Char := base64Alphabet.getD n 'A'

/-- Standard base64 encoding of a byte list (RFC 4648, with `=` padding). -/
def base64EncodeList : List Nat → List Char
  | [] => []
  | [b0] => [base64Char (b0 / 4 % 64), base64Char (b0 % 4 * 16), '=', '=']
  | [b0, b1] =>
      [base64Char (b0 / 4 % 64), base64Char (b0 % 4 * 16 + b1 / 16 % 16),
        base64Char (b1 % 16 * 4), '=']
  | b0 :: b1 :: b2 :: rest =>
      base64Char (b0 / 4 % 64) :: base64Char (b0 % 4 * 16 + b1 / 16 % 16) ::
      base64Char (b1 % 16 * 4 + b2 / 64 % 4) :: base64Char (b2 % 64) ::
      base64EncodeList rest

/-- Standard base64 encoding of a byte list, as a string. -/
def base64Encode (bs : List Nat) : String := String.mk (base64EncodeList bs)

/-- The string produced by `FileReader.readAsDataURL` for a readable blob,
per the WHATWG File API: `data:<mime>;base64,<base64 of the bytes>`. -/
def dataURL (mime : String) (b : Blob) : String :=
  "data:" ++ mime ++ ";base64," ++ base64Encode b.bytes

/-- `blobToBase64` of the direct-dispatch variant (`ui.tsx` lines 179-186):
`onload` resolves `(reader.result as string).split(',')[1]` and `onerror`
rejects.  The input is the read outcome (a read error, or the data URL the
reader produced); the `undefined` that `split(',')[1]` yields on a
comma-free result is modelled as `none`. -/
def blobToBase64 (read : Except Unit String) : Except Unit (Option String) :=
  match read with
  | .error _ => .error ()
  | .ok r => .ok (splitCommaSecond r)

/-- `blobToBase64` of the proxy variants (`part_000` lines 200-211,
`part_001` lines 174-185, `part_002` lines 362-372): `onloadend` resolves
`reader.result?.toString().split(',')[1] || ''` and `onerror` rejects.
The read outcome carries `none` when the reader completed with a `null`
result. -/
def blobToBase64P (read : Except Unit (Option String)) : Except Unit String :=
  match read with
  | .error _ => .error ()
  | .ok r => .ok (jsOrStr (r.bind splitCommaSecond) "")

/-- Observable events of one `exportToAR` / `viewInAR` invocation. -/
inductive Ev where
  /-- `controls.exportGeometry()` was invoked. -/
  | exportInvoked
  /-- `createGlbExporter(plugin).export(plugin)` was invoked. -/
  | glbExporterInvoked
  /-- `createUsdzExporter(plugin).export(plugin)` was invoked. -/
  | usdzExporterInvoked
  /-- `fetch(TOKEN_PROXY_URL)` was invoked. -/
  | tokenFetched
  /-- Direct-dispatch upload: JSON POST with `client_payload` fields. -/
  | uploadDirect (url : String) (glb usdz : Option String) (pdbId : String)
  /-- Proxy upload: JSON POST with `{ pdbId, glb, usdz }`. -/
  | uploadProxy (url pdbId glb usdz : String)
  /-- Token-proxy upload: bearer-authorized JSON POST with `{ pdbId, glb, usdz }`. -/
  | uploadToken (url token pdbId glb usdz : String)
  /-- Multipart upload: form-data POST with `pdbId` and two named files. -/
  | uploadMultipart (url pdbId glbName usdzName : String) (glbBytes usdzBytes : List Nat)
  /-- `console.error(...)` in the catch block. -/
  | loggedError
  /-- The success `console.log` after the upload response. -/
  | loggedSuccess
  /-- `QRCode.toDataURL(...)` was invoked. -/
  | qrInvoked
  /-- `alert(msg)`. -/
  | alerted (msg : String)
  /-- The share popup was appended to the document. -/
  | popup (link qr : Option String)
  /-- `window.open(link, "_blank")`. -/
  | windowOpened (link : Option String)
deriving DecidableEq, Repr

/-- Outcome of one handler invocation: the event trace and the value of
the `busy` flag after the `finally` block. -/
structure RunResult where
  events : List Ev
  busyFinal : Bool
deriving DecidableEq, Repr

/-- `GITHUB_API_URL` of the direct-dispatch variant. -/
def GITHUB_API_URL : String :=
  "https://api.github.com/repos/gaddb/protein-ar-viewer/dispatches"

/-- `UPLOAD_PROXY_URL` of the proxy and token-proxy variants (also
`UPLOADER_API_URL` of the multipart variant). -/
def UPLOAD_PROXY_URL : String := "https://molstar-uploader.onrender.com/upload"

/-- `TOKEN_PROXY_URL` of the token-proxy variant. -/
def TOKEN_PROXY_URL : String := "https://molstar-uploader.onrender.com/token"

/-- Collaborator outcomes for one invocation of the direct-dispatch
variant's `exportToAR` (`ui.tsx`). -/
structure DirectEnv where
  /-- Outcome of `controls.exportGeometry()`. -/
  exportResult : Except Unit ExportData
  /-- `managers.structure.hierarchy.current.structures`. -/
  structures : List StructureEntry
  /-- `new Date().toISOString()`. -/
  iso : String
  /-- Printed base-36 fractional digits of `Math.random()`. -/
  rand : List Nat
  /-- `FileReader` outcome per blob: error, or the produced data URL. -/
  read : Blob → Except Unit String
  /-- `fetch` outcome: `none` if the fetch threw, else `response.ok`. -/
  fetchOk : Option Bool
  /-- Outcome of `QRCode.toDataURL(modelUrl)`. -/
  qrResult : Except Unit String

/-- The `exportToAR` handler of the direct-dispatch variant
(`ui.tsx` lines 98-175): export, derive filenames, base64-encode the same
blob twice, POST to the GitHub dispatch endpoint, then build the model
URL, the QR code and the popup; any rejection is caught, logged and
alerted, and `busy` is reset in `finally`. -/
def exportToAR_direct (env : DirectEnv) : RunResult :=
  let fail := [Ev.loggedError, Ev.alerted "Export to AR failed."]
  let evs :=
    Ev.exportInvoked ::
    match env.exportResult with
    | .error _ => fail
    | .ok data =>
      let pdbId := jsOrStr ((env.structures.head?).bind (fun s => s.entryId)) "Unknown"
      let timestamp := stripSeparators env.iso
      let rid := randomId env.rand
      let glbName := glbFilename pdbId timestamp rid
      let usdzName := usdzFilename pdbId timestamp rid
      match blobToBase64 (env.read data.blob) with
      | .error _ => fail
      | .ok glbBase64 =>
        match blobToBase64 (env.read data.blob) with
        | .error _ => fail
        | .ok usdzBase64 =>
          Ev.uploadDirect GITHUB_API_URL glbBase64 usdzBase64 pdbId ::
          match env.fetchOk with
          | none => fail
          | some ok =>
            if !ok then fail
            else
              let modelUrl := "https://gaddb.github.io/protein-ar-viewer/model.html?glb="
                ++ glbName ++ "&usdz=" ++ usdzName
              Ev.qrInvoked ::
              match env.qrResult with
              | .error _ => fail
              | .ok qr => [Ev.popup (some modelUrl) (some qr)]
  { events := evs, busyFinal := false }

/-- Collaborator outcomes for one invocation of the token-proxy variant's
`exportToAR` (`part_001`). -/
structure TokenEnv where
  /-- Outcome of `controls.exportGeometry()`. -/
  exportResult : Except Unit ExportData
  /-- `managers.structure.hierarchy.current.structures`. -/
  structures : List StructureEntry
  /-- `new Date().toISOString()`. -/
  iso : String
  /-- Printed base-36 fractional digits of `Math.random()`. -/
  rand : List Nat
  /-- `FileReader` outcome per blob (`none` result = `null`). -/
  read : Blob → Except Unit (Option String)
  /-- Token fetch: `none` if the fetch threw, else `tokenResponse.ok`. -/
  tokenFetchOk : Option Bool
  /-- `tokenResponse.json()` outcome, yielding the token. -/
  tokenJson : Except Unit String
  /-- Combined outcome of the upload `fetch` and `uploadResponse.json()`. -/
  uploadResult : Except Unit UploadResp

/-- The `exportToAR` handler of the token-proxy variant (`part_001` lines
121-171): export, base64-encode the same blob twice, GET a token, POST the
upload, then branch on `result.success`; failures are caught, logged and
alerted, and `busy` is reset in `finally`.  (The derived filenames are
computed at lines 131-132 but never used afterwards.) -/
def exportToAR_token (env : TokenEnv) : RunResult :=
  let fail := [Ev.loggedError, Ev.alerted "Export failed. Check console for details."]
  let evs :=
    Ev.exportInvoked ::
    match env.exportResult with
    | .error _ => fail
    | .ok data =>
      let pdbId := jsOrStr ((env.structures.head?).bind (fun s => s.entryId)) "Unknown"
      match blobToBase64P (env.read data.blob) with
      | .error _ => fail
      | .ok glbBase64 =>
        match blobToBase64P (env.read data.blob) with
        | .error _ => fail
        | .ok usdzBase64 =>
          Ev.tokenFetched ::
          match env.tokenFetchOk with
          | none => fail
          | some ok =>
            if !ok then fail
            else
              match env.tokenJson with
              | .error _ => fail
              | .ok token =>
                Ev.uploadToken UPLOAD_PROXY_URL token pdbId glbBase64 usdzBase64 ::
                match env.uploadResult with
                | .error _ => fail
                | .ok result =>
                  if result.success then
                    [Ev.loggedSuccess,
                      Ev.alerted "Model uploaded! Scan the QR code or click the link to view in AR.",
                      Ev.windowOpened result.arLink]
                  else fail
  { events := evs, busyFinal := false }

/-- Collaborator outcomes for one invocation of the proxy variant's
`exportToAR` (`part_000`; the second copy in `part_002` is identical in
behaviour). -/
structure ProxyEnv where
  /-- `StructureHierarchyManager.getStructures(plugin)`. -/
  structures : List StructureEntry
  /-- `new Date().toISOString()`. -/
  iso : String
  /-- Printed base-36 fractional digits of `Math.random()`. -/
  rand : List Nat
  /-- Outcome of `createGlbExporter(plugin).export(plugin)`. -/
  glbExport : Except Unit Blob
  /-- Outcome of `createUsdzExporter(plugin).export(plugin)`. -/
  usdzExport : Except Unit Blob
  /-- `FileReader` outcome per blob (`none` result = `null`). -/
  read : Blob → Except Unit (Option String)
  /-- Combined outcome of the upload `fetch` and `response.json()`. -/
  uploadResult : Except Unit UploadResp

/-- The `exportToAR` handler of the proxy variant (`part_000` lines
125-173): guard on zero structures (alert and return), run the GLB and
USDZ exporters, base64-encode each result, POST to the proxy, then branch
on `result.success`; failures are caught, logged and alerted, and `busy`
is reset in `finally`.  (The derived filenames are computed at lines
140-141 but never used afterwards.) -/
def exportToAR_proxy (env : ProxyEnv) : RunResult :=
  let fail := [Ev.loggedError, Ev.alerted "Export failed. Check console for details."]
  let evs :=
    match env.structures with
    | [] => [Ev.alerted "No structure loaded!"]
    | s0 :: _ =>
      let pdbId := jsOrStr s0.entryId "unknown"
      Ev.glbExporterInvoked ::
      match env.glbExport with
      | .error _ => fail
      | .ok glbBlob =>
        match blobToBase64P (env.read glbBlob) with
        | .error _ => fail
        | .ok glbBase64 =>
          Ev.usdzExporterInvoked ::
          match env.usdzExport with
          | .error _ => fail
          | .ok usdzBlob =>
            match blobToBase64P (env.read usdzBlob) with
            | .error _ => fail
            | .ok usdzBase64 =>
              Ev.uploadProxy UPLOAD_PROXY_URL pdbId glbBase64 usdzBase64 ::
              match env.uploadResult with
              | .error _ => fail
              | .ok result =>
                if result.success then
                  [Ev.loggedSuccess, Ev.popup result.arLink result.qrCodeUrl]
                else fail
  { events := evs, busyFinal := false }

/-- Collaborator outcomes for one invocation of the multipart variant's
`exportToAR` (`part_002` lines 95-168). -/
structure MultipartEnv where
  /-- Outcome of `controls.exportGeometry()`. -/
  exportResult : Except Unit ExportData
  /-- `managers.structure.hierarchy.current.structures`. -/
  structures : List StructureEntry
  /-- `new Date().toISOString()`. -/
  iso : String
  /-- Printed base-36 fractional digits of `Math.random()`. -/
  rand : List Nat
  /-- Upload fetch: `none` if the fetch threw, else `response.ok`. -/
  responseOk : Option Bool
  /-- Outcome of `response.json()`. -/
  responseJson : Except Unit UploadResp
  /-- Outcome of `QRCode.toDataURL(result.arLink)`. -/
  qr : Option String → Except Unit String

/-- The `exportToAR` handler of the multipart variant (`part_002` lines
95-168): export, derive filenames, wrap the same blob as both the `.glb`
and `.usdz` file parts, POST the form data, throw on non-2xx status, parse
the JSON, log success, generate a QR code from `result.arLink` and show
the popup.  Note that `result.success` is never inspected. -/
def exportToAR_multipart (env : MultipartEnv) : RunResult :=
  let fail := [Ev.loggedError, Ev.alerted "Export to AR failed."]
  let evs :=
    Ev.exportInvoked ::
    match env.exportResult with
    | .error _ => fail
    | .ok data =>
      let pdbId := jsOrStr ((env.structures.head?).bind (fun s => s.entryId)) "Unknown"
      let timestamp := stripSeparators env.iso
      let rid := randomId env.rand
      let glbName := glbFilename pdbId timestamp rid
      let usdzName := usdzFilename pdbId timestamp rid
      Ev.uploadMultipart UPLOAD_PROXY_URL pdbId glbName usdzName data.blob.bytes data.blob.bytes ::
      match env.responseOk with
      | none => fail
      | some ok =>
        if !ok then fail
        else
          match env.responseJson with
          | .error _ => fail
          | .ok result =>
            Ev.loggedSuccess ::
            Ev.qrInvoked ::
            match env.qr result.arLink with
            | .error _ => fail
            | .ok qrCodeUrl => [Ev.popup result.arLink (some qrCodeUrl)]
  { events := evs, busyFinal := false }

/-- A timer callback scheduled with `setTimeout`. -/
inductive TimerAction where
  /-- `URL.revokeObjectURL(a.href)`. -/
  | revokeObjectURL
  /-- `a.dispatchEvent(new MouseEvent('click'))`. -/
  | dispatchClick
deriving DecidableEq, Repr

/-- A scheduled timer: delay in milliseconds and the action. -/
structure Timer where
  delayMs : Nat
  action : TimerAction
deriving DecidableEq, Repr

/-- Outcome of one `viewInAR` invocation. -/
structure ViewResult where
  timers : List Timer
  loggedError : Bool
  busyFinal : Bool
deriving DecidableEq, Repr

/-- The `viewInAR` handler of the proxy/token variants (`part_000` lines
108-123, `part_001` lines 104-119): export, create an object URL for the
blob, schedule `URL.revokeObjectURL` after `4E4` ms and a click dispatch
with no delay (0 ms); a failed export is logged; `busy` is reset in
`finally`. -/
def viewInAR (exportResult : Except Unit ExportData) : ViewResult :=
  match exportResult with
  | .error _ => { timers := [], loggedError := true, busyFinal := false }
  | .ok _ =>
      { timers := [{ delayMs := 40000, action := .revokeObjectURL },
                   { delayMs := 0, action := .dispatchClick }],
        loggedError := false, busyFinal := false }

/-- State of the Workflow Controller: the `busy` flag of the component
state, the number of export-and-publish cycles currently in flight, and a
counter of cycles ever started. -/
structure CtrlState where
  busy : Bool
  inFlight : Nat
  started : Nat
deriving DecidableEq, Repr

/-- `disabled={this.state.busy || !this.plugin.canvas3d?.reprCount.value}`
on the triggering buttons (`ui.tsx` lines 59-63): the button is disabled
while busy or while nothing is rendered. -/
def buttonDisabled (busy : Bool) (reprCount : Nat) : Bool :=
  busy || decide (reprCount = 0)

/-- Events of the Workflow Controller: a click on the Export-to-AR button
(with the current representation count), and completion of an in-flight
cycle (the handler's `finally` block). -/
inductive CtrlEvent where
  | trigger (reprCount : Nat)
  | finish
deriving DecidableEq, Repr

/-- One controller step.  A click on a disabled button does not run the
handler; an enabled click sets `busy` and starts a cycle; a completing
cycle clears `busy` in its `finally` block. -/
def ctrlStep (s : CtrlState) : CtrlEvent → CtrlState
  | .trigger rc =>
      if buttonDisabled s.busy rc then s
      else { busy := true, inFlight := s.inFlight + 1, started := s.started + 1 }
  | .finish => { busy := false, inFlight := s.inFlight - 1, started := s.started }

/-- The initial controller state: idle, nothing in flight. -/
def ctrlInit : CtrlState := { busy := false, inFlight := 0, started := 0 }

/-- Controller states reachable from the initial state. -/
inductive CtrlReachable : CtrlState → Prop where
  | init : CtrlReachable ctrlInit
  | step (s : CtrlState) (e : CtrlEvent) : CtrlReachable s → CtrlReachable (ctrlStep s e)

/-- A token-proxy environment with zero loaded subjects and every
collaborator succeeding. -/
def tokenEnvNoSubject : TokenEnv where
  exportResult := .ok { blob := { bytes := [1, 2, 3] }, filename := "molstar.glb" }
  structures := []
  iso := "2025-01-01T00:00:00.000Z"
  rand := [1, 2, 3, 4, 5, 6]
  read := fun _ => .ok (some "d,AQID")
  tokenFetchOk := some true
  tokenJson := .ok "tok"
  uploadResult := .ok { success := true, arLink := some "L", qrCodeUrl := some "Q", error := none }

/-- A direct-dispatch environment in which every collaborator succeeds. -/
def directEnvOk : DirectEnv where
  exportResult := .ok { blob := { bytes := [1] }, filename := "molstar.glb" }
  structures := []
  iso := "T"
  rand := [1]
  read := fun _ => .ok "d,AQID"
  fetchOk := some true
  qrResult := .ok "Q"

/-- A direct-dispatch environment whose export stage rejects. -/
def directEnvExportFail : DirectEnv where
  exportResult := .error ()
  structures := []
  iso := "T"
  rand := [1]
  read := fun _ => .ok "d,A"
  fetchOk := some true
  qrResult := .ok "Q"

/-- A token-proxy environment whose export stage rejects. -/
def tokenEnvExportFail : TokenEnv where
  exportResult := .error ()
  structures := []
  iso := "T"
  rand := [1]
  read := fun _ => .ok (some "d,A")
  tokenFetchOk := some true
  tokenJson := .ok "tok"
  uploadResult := .ok { success := true, arLink := none, qrCodeUrl := none, error := none }

/-- A proxy environment with zero loaded subjects. -/
def proxyEnvNoSubject : ProxyEnv where
  structures := []
  iso := "T"
  rand := [1]
  glbExport := .ok { bytes := [1] }
  usdzExport := .ok { bytes := [2] }
  read := fun _ => .ok (some "d,A")
  uploadResult := .ok { success := true, arLink := none, qrCodeUrl := none, error := none }

/-- A multipart environment whose upload returns HTTP 200 with a
`{success:false, error:"x"}` payload; the QR collaborator succeeds. -/
def multipartEnvNonSuccess : MultipartEnv where
  exportResult := .ok { blob := { bytes := [1] }, filename := "m.glb" }
  structures := []
  iso := "T"
  rand := [1]
  responseOk := some true
  responseJson := .ok { success := false, arLink := none, qrCodeUrl := none, error := some "x" }
  qr := fun _ => .ok "qrimg"

/-- A multipart environment whose upload fetch throws a network error. -/
def multipartEnvNetworkError : MultipartEnv where
  exportResult := .ok { blob := { bytes := [1] }, filename := "m.glb" }
  structures := []
  iso := "T"
  rand := [1]
  responseOk := none
  responseJson := .error ()
  qr := fun _ => .ok "qrimg"

/-- Appending strings appends their character lists. -/
theorem strData_append (a b : String) : (a ++ b).data = a.data ++ b.data := rfl

/-- `jsOrStr (some s) ""` is `s` (when `s` is empty the default is the
empty string again). -/
theorem jsOrStr_some_empty (s : String) : jsOrStr (some s) "" = s := by
  by_cases h : s = "" <;> simp [jsOrStr, h]

/-- JS `split` never returns an empty array. -/
theorem splitOnComma_ne_nil (cs : List Char) : splitOnComma cs ≠ [] := by
  cases cs with
  | nil => simp [splitOnComma]
  | cons c rest =>
    rw [splitOnComma]
    split
    · simp
    · split <;> simp

/-- Splitting a comma-free list yields that list alone. -/
theorem splitOnComma_of_not_mem (cs : List Char) (h : ',' ∉ cs) : splitOnComma cs = [cs] := by
  induction cs with
  | nil => rfl
  | cons c rest ih =>
    simp only [List.mem_cons, not_or] at h
    have hc : ¬ c = ',' := fun hc => h.1 hc.symm
    rw [splitOnComma, ih h.2]
    simp [hc]

/-- Splitting at the first comma of a list with a comma-free prefix. -/
theorem splitOnComma_append (p rest : List Char) (h : ',' ∉ p) :
    splitOnComma (p ++ ',' :: rest) = p :: splitOnComma rest := by
  induction p with
  | nil =>
    rcases hs : splitOnComma rest with _ | ⟨q, qs⟩
    · exact absurd hs (splitOnComma_ne_nil rest)
    · rw [List.nil_append, splitOnComma, hs]
      simp
  | cons c p ih =>
    simp only [List.mem_cons, not_or] at h
    have hc : ¬ c = ',' := fun hc => h.1 hc.symm
    rw [List.cons_append, splitOnComma, ih h.2]
    simp [hc]

/-- Every produced base64 character is in the base64 alphabet. -/
theorem base64Char_mem (n : Nat) : base64Char n ∈ base64Alphabet := by
  rw [base64Char, List.getD_eq_getD_get? base64Alphabet 'A' n]
  rcases hg : base64Alphabet.get? n with _ | c
  · simp only [Option.getD_none]
    decide
  · simpa using List.get?_mem hg

/-- The base64 alphabet has no comma. -/
theorem base64Char_ne_comma (n : Nat) : base64Char n ≠ ',' := by
  intro hc
  have h := base64Char_mem n
  rw [hc] at h
  revert h
  decide

/-- A base64 encoding contains no comma. -/
theorem comma_not_mem_base64 : ∀ bs : List Nat, ',' ∉ base64EncodeList bs
  | [] => by simp [base64EncodeList]
  | [b0] => by
      intro h
      simp only [base64EncodeList, List.mem_cons, List.not_mem_nil, or_false] at h
      rcases h with h | h | h | h
      · exact base64Char_ne_comma _ h.symm
      · exact base64Char_ne_comma _ h.symm
      · exact absurd h (by decide)
      · exact absurd h (by decide)
  | [b0, b1] => by
      intro h
      simp only [base64EncodeList, List.mem_cons, List.not_mem_nil, or_false] at h
      rcases h with h | h | h | h
      · exact base64Char_ne_comma _ h.symm
      · exact base64Char_ne_comma _ h.symm
      · exact base64Char_ne_comma _ h.symm
      · exact absurd h (by decide)
  | b0 :: b1 :: b2 :: rest => by
      intro h
      simp only [base64EncodeList, List.mem_cons] at h
      rcases h with h | h | h | h | h
      · exact base64Char_ne_comma _ h.symm
      · exact base64Char_ne_comma _ h.symm
      · exact base64Char_ne_comma _ h.symm
      · exact base64Char_ne_comma _ h.symm
      · exact comma_not_mem_base64 rest h

/-- The character list of the data URL, with its single comma made
explicit. -/
theorem dataURL_data (mime : String) (b : Blob) :
    (dataURL mime b).data
      = ("data:".data ++ mime.data ++ [';', 'b', 'a', 's', 'e', '6', '4'])
          ++ ',' :: base64EncodeList b.bytes := by
  show ("data:" ++ mime ++ ";base64," ++ base64Encode b.bytes).data = _
  rw [strData_append, strData_append, strData_append]
  simp only [List.append_assoc]
  rfl

/-- `split(',')[1]` on a data URL recovers exactly the base64 payload,
for any comma-free media type. -/
theorem splitCommaSecond_dataURL (mime : String) (b : Blob) (hm : ',' ∉ mime.data) :
    splitCommaSecond (dataURL mime b) = some (base64Encode b.bytes) := by
  have hpre : ',' ∉ "data:".data ++ mime.data ++ [';', 'b', 'a', 's', 'e', '6', '4'] := by
    simp only [List.mem_append, not_or]
    exact ⟨⟨by decide, hm⟩, by decide⟩
  rw [splitCommaSecond, dataURL_data, splitOnComma_append _ _ hpre,
    splitOnComma_of_not_mem _ (comma_not_mem_base64 _)]
  rfl

/-- The random suffix is exactly the first six printed base-36 fractional
digits of the random draw. -/
theorem randomId_eq (ds : List Nat) : randomId ds = String.mk ((ds.take 6).map base36Char) := by
  cases ds with
  | nil => rfl
  | cons d ds =>
    show jsSubstring (String.mk ('0' :: '.' :: (d :: ds).map base36Char)) 2 8 = _
    rw [jsSubstring]
    simp [List.map_take]

/-- The random suffix has `min 6 k` characters when the random draw
prints `k` fractional base-36 digits. -/
theorem randomId_length (ds : List Nat) : (randomId ds).length = min 6 ds.length := by
  rw [randomId_eq]
  show ((ds.take 6).map base36Char).length = min 6 ds.length
  rw [List.length_map, List.length_take]

/-- The stripped timestamp contains no dash. -/
theorem dash_not_mem_stripSeparators (s : String) : '-' ∉ (stripSeparators s).data := by
  show '-' ∉ s.data.filter _
  simp [List.mem_filter]

/-- Every produced base-36 digit character is in the base-36 alphabet. -/
theorem base36Char_mem (n : Nat) : base36Char n ∈ base36Digits := by
  rw [base36Char, List.getD_eq_getD_get? base36Digits '0' n]
  rcases hg : base36Digits.get? n with _ | c
  · simp only [Option.getD_none]
    decide
  · simpa using List.get?_mem hg

/-- The base-36 alphabet has no dash. -/
theorem base36Char_ne_dash (n : Nat) : base36Char n ≠ '-' := by
  intro hc
  have h := base36Char_mem n
  rw [hc] at h
  revert h
  decide

/-- The random suffix contains no dash. -/
theorem dash_not_mem_randomId (ds : List Nat) : '-' ∉ (randomId ds).data := by
  rw [randomId_eq]
  show '-' ∉ (ds.take 6).map base36Char
  simp only [List.mem_map, not_exists]
  intro d hd
  exact base36Char_ne_dash d hd.2

/-- Cancelling a dash-separated concatenation when both prefixes are
dash-free: the first dash determines the split. -/
theorem append_dash_inj (a1 : List Char) : ∀ (a2 b1 b2 : List Char), '-' ∉ a1 → '-' ∉ a2 →
    a1 ++ '-' :: b1 = a2 ++ '-' :: b2 → a1 = a2 ∧ b1 = b2 := by
  induction a1 with
  | nil =>
    intro a2 b1 b2 _ h2 h
    cases a2 with
    | nil => simpa using h
    | cons c a2 =>
      simp only [List.nil_append, List.cons_append, List.cons.injEq] at h
      obtain ⟨hc, -⟩ := h
      rw [← hc] at h2
      simp at h2
  | cons c a1 ih =>
    intro a2 b1 b2 h1 h2 h
    cases a2 with
    | nil =>
      simp only [List.cons_append, List.nil_append, List.cons.injEq] at h
      obtain ⟨hc, -⟩ := h
      rw [hc] at h1
      simp at h1
    | cons c2 a2 =>
      simp only [List.cons_append, List.cons.injEq] at h
      obtain ⟨rfl, h⟩ := h
      simp only [List.mem_cons, not_or] at h1 h2
      obtain ⟨ha, hb⟩ := ih a2 b1 b2 h1.2 h2.2 h
      exact ⟨by rw [ha], hb⟩

/-- Equal `.glb` filenames with the same subject id and dash-free
timestamp parts force equal timestamps and random tokens. -/
theorem glbFilename_inj (p t1 t2 r1 r2 : String)
    (ht1 : '-' ∉ t1.data) (ht2 : '-' ∉ t2.data)
    (h : glbFilename p t1 r1 = glbFilename p t2 r2) : t1 = t2 ∧ r1 = r2 := by
  have hd : p.data ++ '-' :: (t1.data ++ '-' :: (r1.data ++ ".glb".data))
      = p.data ++ '-' :: (t2.data ++ '-' :: (r2.data ++ ".glb".data)) := by
    have hc := congrArg String.data h
    simp only [glbFilename, strData_append, List.append_assoc] at hc
    simpa using hc
  have hd2 := List.append_cancel_left hd
  have hd3 : t1.data ++ '-' :: (r1.data ++ ".glb".data)
      = t2.data ++ '-' :: (r2.data ++ ".glb".data) := by
    injection hd2
  obtain ⟨hteq, hrest⟩ := append_dash_inj _ _ _ _ ht1 ht2 hd3
  have hr : r1.data = r2.data := List.append_cancel_right hrest
  exact ⟨String.ext hteq, String.ext hr⟩

/-- Equal `.usdz` filenames with the same subject id and dash-free
timestamp parts force equal timestamps and random tokens. -/
theorem usdzFilename_inj (p t1 t2 r1 r2 : String)
    (ht1 : '-' ∉ t1.data) (ht2 : '-' ∉ t2.data)
    (h : usdzFilename p t1 r1 = usdzFilename p t2 r2) : t1 = t2 ∧ r1 = r2 := by
  have hd : p.data ++ '-' :: (t1.data ++ '-' :: (r1.data ++ ".usdz".data))
      = p.data ++ '-' :: (t2.data ++ '-' :: (r2.data ++ ".usdz".data)) := by
    have hc := congrArg String.data h
    simp only [usdzFilename, strData_append, List.append_assoc] at hc
    simpa using hc
  have hd2 := List.append_cancel_left hd
  have hd3 : t1.data ++ '-' :: (r1.data ++ ".usdz".data)
      = t2.data ++ '-' :: (r2.data ++ ".usdz".data) := by
    injection hd2
  obtain ⟨hteq, hrest⟩ := append_dash_inj _ _ _ _ ht1 ht2 hd3
  have hr : r1.data = r2.data := List.append_cancel_right hrest
  exact ⟨String.ext hteq, String.ext hr⟩

/-- Invariant of the Workflow Controller: the number of in-flight cycles
is 1 exactly while `busy`, else 0. -/
theorem ctrl_inFlight_eq (s : CtrlState) (h : CtrlReachable s) :
    s.inFlight = (if s.busy then 1 else 0) := by
  induction h with
  | init => rfl
  | step s e _ ih =>
    cases e with
    | trigger rc =>
      by_cases hb : buttonDisabled s.busy rc = true
      · simp [ctrlStep, hb, ih]
      · have hbusy : s.busy = false := by
          rcases hbusy : s.busy with _ | _
          · rfl
          · exact absurd (by rw [buttonDisabled, hbusy]; simp) hb
        rw [hbusy] at ih
        simp at ih
        simp [ctrlStep, hb, ih]
    | finish =>
      rcases hbusy : s.busy with _ | _ <;> rw [hbusy] at ih <;> simp at ih <;>
        simp [ctrlStep, ih]

/-- C1: Busy-gate exclusivity — in every reachable controller state with
the busy flag set, at most one export-and-publish cycle is in flight, the
triggering control is disabled (for every representation count), and a
second trigger is a no-op: it leaves the state unchanged, so it starts no
second export and queues nothing. -/
theorem busy_gate_exclusivity (s : CtrlState) (rc : Nat)
    (h : CtrlReachable s) (hb : s.busy = true) :
    s.inFlight ≤ 1 ∧ buttonDisabled s.busy rc = true ∧ ctrlStep s (.trigger rc) = s := by
  have hinv := ctrl_inFlight_eq s h
  rw [hb] at hinv
  simp only [if_true] at hinv
  have hdis : buttonDisabled s.busy rc = true := by
    rw [buttonDisabled, hb]
    simp
  refine ⟨by omega, hdis, ?_⟩
  simp [ctrlStep, hdis]

/-- C1 witness: after one enabled trigger from the initial state the
controller is busy, and a second trigger is rejected by the disabled
control and changes nothing. -/
theorem busy_gate_exclusivity_witness :
    (ctrlStep ctrlInit (.trigger 1)).inFlight ≤ 1 ∧
    buttonDisabled (ctrlStep ctrlInit (.trigger 1)).busy 2 = true ∧
    ctrlStep (ctrlStep ctrlInit (.trigger 1)) (.trigger 2) = ctrlStep ctrlInit (.trigger 1) :=
  busy_gate_exclusivity (ctrlStep ctrlInit (.trigger 1)) 2
    (CtrlReachable.step ctrlInit (.trigger 1) CtrlReachable.init) (by decide)

/-- C5 counterexample: the composite identifier is a function of the
subject id, the ISO timestamp and the printed digits of the random draw
alone; two sequential invocations that observe the same millisecond
timestamp and the same random value (both possible: the clock has
millisecond resolution and `Math.random` can repeat) therefore derive
identical filenames, so the identifiers are not "never equal". -/
theorem identity_uniqueness_counterexample :
    resolveIdentity (some "1crn") "Unknown" "2025-01-01T00:00:00.000Z" [1, 2, 3, 4, 5, 6]
      = resolveIdentity (some "1crn") "Unknown" "2025-01-01T00:00:00.000Z" [1, 2, 3, 4, 5, 6] ∧
    (resolveIdentity (some "1crn") "Unknown" "2025-01-01T00:00:00.000Z" [1, 2, 3, 4, 5, 6]).1
      = "1crn-20250101T000000000Z-123456.glb" := ⟨rfl, by decide⟩

/-- C5 (amended): for two invocations with the same subject, the derived
`.glb` and `.usdz` filenames differ whenever the stripped timestamps or
the random tokens differ; only a simultaneous collision of both (same
millisecond and same random draw) yields equal names. -/
theorem identity_uniqueness_amended (eid : Option String) (sent iso1 iso2 : String)
    (ds1 ds2 : List Nat)
    (hne : stripSeparators iso1 ≠ stripSeparators iso2 ∨ randomId ds1 ≠ randomId ds2) :
    (resolveIdentity eid sent iso1 ds1).1 ≠ (resolveIdentity eid sent iso2 ds2).1 ∧
    (resolveIdentity eid sent iso1 ds1).2 ≠ (resolveIdentity eid sent iso2 ds2).2 := by
  constructor
  · intro h
    obtain ⟨ht, hr⟩ := glbFilename_inj _ _ _ _ _
      (dash_not_mem_stripSeparators iso1) (dash_not_mem_stripSeparators iso2) h
    rcases hne with hne | hne
    exacts [hne ht, hne hr]
  · intro h
    obtain ⟨ht, hr⟩ := usdzFilename_inj _ _ _ _ _
      (dash_not_mem_stripSeparators iso1) (dash_not_mem_stripSeparators iso2) h
    rcases hne with hne | hne
    exacts [hne ht, hne hr]

/-- C5 (amended) witness: two invocations whose timestamps differ derive
different filenames. -/
theorem identity_uniqueness_amended_witness :
    (resolveIdentity none "Unknown" "2025-01-01T00:00:00.001Z" [1]).1
      ≠ (resolveIdentity none "Unknown" "2025-01-01T00:00:00.002Z" [1]).1 ∧
    (resolveIdentity none "Unknown" "2025-01-01T00:00:00.001Z" [1]).2
      ≠ (resolveIdentity none "Unknown" "2025-01-01T00:00:00.002Z" [1]).2 :=
  identity_uniqueness_amended none "Unknown" "2025-01-01T00:00:00.001Z"
    "2025-01-01T00:00:00.002Z" [1] [1] (Or.inl (by decide))

/-- C6 counterexample: `Math.random()` can return `0.5`, whose base-36
printing is `"0.i"`; `substring(2, 8)` then yields the one-character token
`"i"`, so the random suffix is not always at least 6 characters long. -/
theorem random_suffix_length_counterexample : ¬ 6 ≤ (randomId [18]).length := by decide

/-- C6 (amended): the random token has exactly `min 6 k` characters when
the random draw prints `k` fractional base-36 digits — so it is at most 6
characters long, reaching 6 only when the draw prints at least 6 digits. -/
theorem random_suffix_length_amended (ds : List Nat) :
    (randomId ds).length = min 6 ds.length ∧ (randomId ds).length ≤ 6 := by
  have h := randomId_length ds
  exact ⟨h, by omega⟩

/-- C7: encoding a readable artifact returns the base64 text of its full
byte content with the data-URI header (up to and including the single
comma) stripped, in both `blobToBase64` implementations; a read error
makes the returned promise reject, in both implementations. -/
theorem artifact_encoding (b : Blob) (mime : String) (hm : ',' ∉ mime.data) :
    blobToBase64 (.ok (dataURL mime b)) = .ok (some (base64Encode b.bytes)) ∧
    blobToBase64P (.ok (some (dataURL mime b))) = .ok (base64Encode b.bytes) ∧
    (∀ e : Unit, blobToBase64 (.error e) = .error ()) ∧
    (∀ e : Unit, blobToBase64P (.error e) = .error ()) := by
  refine ⟨?_, ?_, fun _ => rfl, fun _ => rfl⟩
  · show Except.ok (splitCommaSecond (dataURL mime b)) = _
    rw [splitCommaSecond_dataURL mime b hm]
  · show Except.ok (jsOrStr ((some (dataURL mime b)).bind splitCommaSecond) "") = _
    rw [Option.some_bind, splitCommaSecond_dataURL mime b hm, jsOrStr_some_empty]

/-- C7 witness: a concrete two-byte blob with the standard GLB media type
encodes to its base64 text, and read errors reject. -/
theorem artifact_encoding_witness :
    (',' ∉ "model/gltf-binary".data) ∧
    (blobToBase64 (.ok (dataURL "model/gltf-binary" { bytes := [77, 111] }))
      = .ok (some (base64Encode [77, 111])) ∧
    blobToBase64P (.ok (some (dataURL "model/gltf-binary" { bytes := [77, 111] })))
      = .ok (base64Encode [77, 111]) ∧
    (∀ e : Unit, blobToBase64 (.error e) = .error ()) ∧
    (∀ e : Unit, blobToBase64P (.error e) = .error ())) :=
  ⟨by decide, artifact_encoding { bytes := [77, 111] } "model/gltf-binary" (by decide)⟩

/-- C10: the proxy-variant conversion resolves with the empty string when
the read completes with a `null` result or with a result containing no
comma; it rejects exactly when the reader signals a read error. -/
theorem proxy_encoding_fallback :
    blobToBase64P (.ok none) = .ok "" ∧
    (∀ s : String, ',' ∉ s.data → blobToBase64P (.ok (some s)) = .ok "") ∧
    (∀ o : Except Unit (Option String), blobToBase64P o = .error () ↔ o = .error ()) := by
  refine ⟨rfl, fun s hs => ?_, fun o => ?_⟩
  · show Except.ok (jsOrStr ((some s).bind splitCommaSecond) "") = _
    rw [Option.some_bind, splitCommaSecond, splitOnComma_of_not_mem _ hs]
    rfl
  · cases o with
    | error e => simp [blobToBase64P]
    | ok r => simp [blobToBase64P]

/-- C10 witness: a comma-free read result resolves with the empty string,
a null result resolves with the empty string, and a read error rejects. -/
theorem proxy_encoding_fallback_witness :
    blobToBase64P (.ok none) = .ok "" ∧
    ((',' ∉ "abc".data) ∧ blobToBase64P (.ok (some "abc")) = .ok "") ∧
    (blobToBase64P (.error ()) = .error () ↔ (.error () : Except Unit (Option String)) = .error ()) :=
  ⟨proxy_encoding_fallback.1, ⟨by decide, proxy_encoding_fallback.2.1 "abc" (by decide)⟩,
    proxy_encoding_fallback.2.2 (.error ())⟩

/-- C2 counterexample: in the token-proxy variant an invocation with zero
loaded subjects does not fail early — `exportGeometry` (the exporter
collaborator) is invoked first, the subject id falls back to the sentinel
`"Unknown"`, the upload proceeds, and no no-subject notice is shown. -/
theorem no_subject_guard_counterexample :
    tokenEnvNoSubject.structures = [] ∧
    Ev.exportInvoked ∈ (exportToAR_token tokenEnvNoSubject).events ∧
    Ev.uploadToken UPLOAD_PROXY_URL "tok" "Unknown" "AQID" "AQID"
      ∈ (exportToAR_token tokenEnvNoSubject).events ∧
    Ev.alerted "No structure loaded!" ∉ (exportToAR_token tokenEnvNoSubject).events := by
  decide

/-- C2 (amended): only the proxy variants guard against zero loaded
subjects — there, the invocation stops immediately with the no-structure
notice, invokes no exporter collaborator and no upload, and the busy flag
returns to false; the direct, token-proxy and multipart variants have no
such guard and proceed with the sentinel subject id. -/
theorem no_subject_guard_amended (env : ProxyEnv) (u p g z : String)
    (h : env.structures = []) :
    (exportToAR_proxy env).events = [Ev.alerted "No structure loaded!"] ∧
    (exportToAR_proxy env).busyFinal = false ∧
    Ev.glbExporterInvoked ∉ (exportToAR_proxy env).events ∧
    Ev.usdzExporterInvoked ∉ (exportToAR_proxy env).events ∧
    Ev.uploadProxy u p g z ∉ (exportToAR_proxy env).events := by
  have hev : (exportToAR_proxy env).events = [Ev.alerted "No structure loaded!"] := by
    simp [exportToAR_proxy, h]
  exact ⟨hev, rfl, by simp [hev], by simp [hev], by simp [hev]⟩

/-- C2 (amended) witness: a concrete proxy environment with zero loaded
subjects stops at the no-structure notice. -/
theorem no_subject_guard_amended_witness :
    (exportToAR_proxy proxyEnvNoSubject).events = [Ev.alerted "No structure loaded!"] ∧
    (exportToAR_proxy proxyEnvNoSubject).busyFinal = false ∧
    Ev.glbExporterInvoked ∉ (exportToAR_proxy proxyEnvNoSubject).events ∧
    Ev.usdzExporterInvoked ∉ (exportToAR_proxy proxyEnvNoSubject).events ∧
    Ev.uploadProxy "u" "p" "g" "z" ∉ (exportToAR_proxy proxyEnvNoSubject).events :=
  no_subject_guard_amended proxyEnvNoSubject "u" "p" "g" "z" rfl

/-- C3: when the export stage rejects, in both the direct-dispatch and the
token-proxy variants the whole trace is exactly export, error log, generic
failure alert — so the publish upload is never invoked, the cause is
logged, the generic notice is shown, and the busy flag returns to false. -/
theorem export_failure_containment (envD : DirectEnv) (envT : TokenEnv)
    (u1 : String) (g1 z1 : Option String) (p1 : String) (u2 t2 p2 g2 z2 : String)
    (hD : envD.exportResult = .error ()) (hT : envT.exportResult = .error ()) :
    ((exportToAR_direct envD).events
        = [Ev.exportInvoked, Ev.loggedError, Ev.alerted "Export to AR failed."] ∧
      (exportToAR_direct envD).busyFinal = false ∧
      Ev.uploadDirect u1 g1 z1 p1 ∉ (exportToAR_direct envD).events) ∧
    ((exportToAR_token envT).events
        = [Ev.exportInvoked, Ev.loggedError,
            Ev.alerted "Export failed. Check console for details."] ∧
      (exportToAR_token envT).busyFinal = false ∧
      Ev.uploadToken u2 t2 p2 g2 z2 ∉ (exportToAR_token envT).events) := by
  have hevD : (exportToAR_direct envD).events
      = [Ev.exportInvoked, Ev.loggedError, Ev.alerted "Export to AR failed."] := by
    simp [exportToAR_direct, hD]
  have hevT : (exportToAR_token envT).events
      = [Ev.exportInvoked, Ev.loggedError,
          Ev.alerted "Export failed. Check console for details."] := by
    simp [exportToAR_token, hT]
  exact ⟨⟨hevD, rfl, by simp [hevD]⟩, ⟨hevT, rfl, by simp [hevT]⟩⟩

/-- C3 witness: concrete environments whose export stage rejects produce
exactly the log-and-alert failure trace with no upload. -/
theorem export_failure_containment_witness :
    ((exportToAR_direct directEnvExportFail).events
        = [Ev.exportInvoked, Ev.loggedError, Ev.alerted "Export to AR failed."] ∧
      (exportToAR_direct directEnvExportFail).busyFinal = false ∧
      Ev.uploadDirect "u" (some "g") (some "z") "p"
        ∉ (exportToAR_direct directEnvExportFail).events) ∧
    ((exportToAR_token tokenEnvExportFail).events
        = [Ev.exportInvoked, Ev.loggedError,
            Ev.alerted "Export failed. Check console for details."] ∧
      (exportToAR_token tokenEnvExportFail).busyFinal = false ∧
      Ev.uploadToken "u" "t" "p" "g" "z" ∉ (exportToAR_token tokenEnvExportFail).events) :=
  export_failure_containment directEnvExportFail tokenEnvExportFail
    "u" (some "g") (some "z") "p" "u" "t" "p" "g" "z" rfl rfl

/-- C8: every successful local AR preview invocation schedules the release
of the temporary object URL, and the configured delay (40000 ms) lies in
the tens-of-seconds range; the busy flag returns to false. -/
theorem ar_preview_release (r : Except Unit ExportData) (d : ExportData) (h : r = .ok d) :
    (∃ t ∈ (viewInAR r).timers, t.action = TimerAction.revokeObjectURL ∧
      10000 ≤ t.delayMs ∧ t.delayMs < 100000) ∧
    (viewInAR r).busyFinal = false := by
  subst h
  refine ⟨⟨{ delayMs := 40000, action := .revokeObjectURL }, ?_, rfl, by decide, by decide⟩, rfl⟩
  simp [viewInAR]

/-- C8 witness: a concrete successful preview schedules the 40-second
release. -/
theorem ar_preview_release_witness :
    (∃ t ∈ (viewInAR (.ok { blob := { bytes := [1] }, filename := "m.usdz" })).timers,
      t.action = TimerAction.revokeObjectURL ∧ 10000 ≤ t.delayMs ∧ t.delayMs < 100000) ∧
    (viewInAR (.ok { blob := { bytes := [1] }, filename := "m.usdz" })).busyFinal = false :=
  ar_preview_release _ { blob := { bytes := [1] }, filename := "m.usdz" } rfl

/-- C4 counterexample: in the multipart variant an HTTP-200 response with
a well-formed `{success:false, error:"x"}` payload is not treated like a
thrown network error — the traces differ: the non-success run logs
success, presents the popup (with the absent link) and shows no failure
notice, while the network-error run logs the error and alerts. -/
theorem upload_nonsuccess_counterexample :
    (exportToAR_multipart multipartEnvNonSuccess).events
      ≠ (exportToAR_multipart multipartEnvNetworkError).events ∧
    Ev.loggedSuccess ∈ (exportToAR_multipart multipartEnvNonSuccess).events ∧
    Ev.popup none (some "qrimg") ∈ (exportToAR_multipart multipartEnvNonSuccess).events ∧
    Ev.alerted "Export to AR failed." ∉ (exportToAR_multipart multipartEnvNonSuccess).events ∧
    Ev.alerted "Export to AR failed." ∈ (exportToAR_multipart multipartEnvNetworkError).events := by
  decide

/-- C4 (amended): in the JSON-proxy variants (token-proxy and no-auth
proxy) an upload response with a well-formed non-success payload is
treated identically to a thrown network error: with all other collaborator
outcomes equal, the two runs produce identical results (same failure path,
same generic notice, no result presented); the multipart variant, which
never inspects the `success` field, is excluded. -/
theorem upload_nonsuccess_amended
    (e : Except Unit ExportData) (st : List StructureEntry) (iso : String) (rand : List Nat)
    (readT : Blob → Except Unit (Option String)) (tfo : Option Bool) (tj : Except Unit String)
    (r1 : UploadResp) (h1 : r1.success = false)
    (stP : List StructureEntry) (isoP : String) (randP : List Nat)
    (ge ue : Except Unit Blob) (readP : Blob → Except Unit (Option String))
    (r2 : UploadResp) (h2 : r2.success = false) :
    exportToAR_token ⟨e, st, iso, rand, readT, tfo, tj, .ok r1⟩
      = exportToAR_token ⟨e, st, iso, rand, readT, tfo, tj, .error ()⟩ ∧
    exportToAR_proxy ⟨stP, isoP, randP, ge, ue, readP, .ok r2⟩
      = exportToAR_proxy ⟨stP, isoP, randP, ge, ue, readP, .error ()⟩ := by
  constructor
  · simp only [exportToAR_token]
    cases e with
    | error u => rfl
    | ok data =>
      rcases hg : blobToBase64P (readT data.blob) with u | g
      · simp only [hg]
      · simp only [hg]
        cases tfo with
        | none => rfl
        | some ok =>
          cases ok with
          | false => rfl
          | true =>
            cases tj with
            | error u => rfl
            | ok token => simp [h1]
  · simp only [exportToAR_proxy]
    cases stP with
    | nil => rfl
    | cons s0 rest =>
      cases ge with
      | error u => rfl
      | ok glbBlob =>
        rcases hg : blobToBase64P (readP glbBlob) with u | g
        · simp only [hg]
        · simp only [hg]
          cases ue with
          | error u => rfl
          | ok usdzBlob =>
            rcases hu : blobToBase64P (readP usdzBlob) with u | z
            · simp only [hu]
            · simp only [hu]
              simp [h2]

/-- C4 (amended) witness: concrete token-proxy and proxy runs whose upload
returns `{success:false, error:"x"}` coincide with the same runs whose
upload fetch throws. -/
theorem upload_nonsuccess_amended_witness :
    exportToAR_token ⟨.ok { blob := { bytes := [1] }, filename := "m.glb" }, [], "T", [1],
        (fun _ => .ok (some "d,A")), some true, .ok "tok",
        .ok { success := false, arLink := none, qrCodeUrl := none, error := some "x" }⟩
      = exportToAR_token ⟨.ok { blob := { bytes := [1] }, filename := "m.glb" }, [], "T", [1],
        (fun _ => .ok (some "d,A")), some true, .ok "tok", .error ()⟩ ∧
    exportToAR_proxy ⟨[{ entryId := some "1crn" }], "T", [1], .ok { bytes := [1] },
        .ok { bytes := [2] }, (fun _ => .ok (some "d,A")),
        .ok { success := false, arLink := none, qrCodeUrl := none, error := some "x" }⟩
      = exportToAR_proxy ⟨[{ entryId := some "1crn" }], "T", [1], .ok { bytes := [1] },
        .ok { bytes := [2] }, (fun _ => .ok (some "d,A")), .error ()⟩ :=
  upload_nonsuccess_amended
    (.ok { blob := { bytes := [1] }, filename := "m.glb" }) [] "T" [1]
    (fun _ => .ok (some "d,A")) (some true) (.ok "tok")
    { success := false, arLink := none, qrCodeUrl := none, error := some "x" } rfl
    [{ entryId := some "1crn" }] "T" [1] (.ok { bytes := [1] }) (.ok { bytes := [2] })
    (fun _ => .ok (some "d,A"))
    { success := false, arLink := none, qrCodeUrl := none, error := some "x" } rfl

/-- C9: in the direct-dispatch and token-proxy variants, every upload
request body carries byte-identical `glb` and `usdz` payloads — both
base64 fields are encodings of the same single exported blob. -/
theorem same_blob_payload (envD : DirectEnv) (envT : TokenEnv)
    (url1 : String) (g1 z1 : Option String) (p1 : String)
    (url2 tk p2 g2 z2 : String)
    (hD : Ev.uploadDirect url1 g1 z1 p1 ∈ (exportToAR_direct envD).events)
    (hT : Ev.uploadToken url2 tk p2 g2 z2 ∈ (exportToAR_token envT).events) :
    g1 = z1 ∧ g2 = z2 := by
  constructor
  · rcases envD with ⟨e, st, iso, rand, read, fok, qrr⟩
    simp only [exportToAR_direct] at hD
    rw [List.mem_cons] at hD
    rcases hD with h | hD
    · exact absurd h (by simp)
    · cases e with
      | error u => simp at hD
      | ok data =>
        dsimp only at hD
        rcases hg : blobToBase64 (read data.blob) with u | g
        · rw [hg] at hD
          simp at hD
        · rw [hg] at hD
          simp only [List.mem_cons] at hD
          rcases hD with h | hD
          · simp only [Ev.uploadDirect.injEq] at h
            obtain ⟨-, h2, h3, -⟩ := h
            rw [h2, h3]
          · exfalso
            rcases fok with _ | ok
            · simp at hD
            · rcases ok with _ | _
              · simp at hD
              · rcases qrr with u | qq
                · simp at hD
                · simp at hD
  · rcases envT with ⟨e, st, iso, rand, read, tfo, tj, ur⟩
    simp only [exportToAR_token] at hT
    rw [List.mem_cons] at hT
    rcases hT with h | hT
    · exact absurd h (by simp)
    · cases e with
      | error u => simp at hT
      | ok data =>
        dsimp only at hT
        rcases hg : blobToBase64P (read data.blob) with u | g
        · rw [hg] at hT
          simp at hT
        · rw [hg] at hT
          rcases tfo with _ | ok
          · simp_all
          · rcases ok with _ | _
            · simp_all
            · rcases tj with u | token
              · simp_all
              · rcases ur with u | result
                · simp_all
                · rcases result with ⟨_ | _, link, qr2, err⟩ <;> simp_all

/-- C9 witness: concrete successful runs of both variants upload equal
`glb` and `usdz` payloads. -/
theorem same_blob_payload_witness :
    (Ev.uploadDirect GITHUB_API_URL (some "AQID") (some "AQID") "Unknown"
        ∈ (exportToAR_direct directEnvOk).events) ∧
    (Ev.uploadToken UPLOAD_PROXY_URL "tok" "Unknown" "AQID" "AQID"
        ∈ (exportToAR_token tokenEnvNoSubject).events) ∧
    ((some "AQID" : Option String) = some "AQID" ∧ "AQID" = "AQID") :=
  ⟨by decide, by decide,
    same_blob_payload directEnvOk tokenEnvNoSubject GITHUB_API_URL (some "AQID") (some "AQID")
      "Unknown" UPLOAD_PROXY_URL "tok" "Unknown" "AQID" "AQID" (by decide) (by decide)⟩
